import Mathlib

/-!
Shallow embedding of the rugby-pitch calculator core (src/app/page.tsx).
Screen and pitch coordinates are real-valued; the bounding rectangle of the
rendering surface is passed explicitly as an optional top-left point, since
the source reads it from the DOM and falls back when it is unavailable.
-/

namespace RugbyPitch

/-- A 2-D point, in pitch meters or screen pixels depending on context. -/
@[ext]
structure Point where
  x : ℝ
  y : ℝ

/-- PITCH_LENGTH = 100 (try-line to try-line distance, meters). -/
def PITCH_LENGTH : ℝ := 100

/-- PITCH_WIDTH = 70 (touchline to touchline distance, meters). -/
def PITCH_WIDTH : ℝ := 70

/-- GOAL_POST_WIDTH = 5.6 (distance between the posts, meters). -/
def GOAL_POST_WIDTH : ℝ := 5.6

/-- IN_GOAL_DEPTH = 10 (depth of each in-goal area, meters). -/
def IN_GOAL_DEPTH : ℝ := 10

/-- SCALE = 4 (screen pixels per pitch meter). -/
def SCALE : ℝ := 4

/-- The two goals: top is the goal line at pitch-y = PITCH_LENGTH (the
spec's Far goal), bottom is the goal line at pitch-y = 0 (the spec's Near
goal). -/
inductive Goal where
  | top
  | bottom
deriving DecidableEq

/-- The result record produced by a click. -/
structure CalculationResult where
  distanceToNearestGoal : ℝ
  angleWidth : ℝ
  selectedPoint : Point
  nearestGoal : Goal

/-- svgToPitch: converts a screen coordinate to pitch coordinates; when the
bounding rectangle is unavailable it returns the zero point. -/
noncomputable def svgToPitch (rect : Option Point) (svg : Point) : Point :=
  match rect with
  | none => ⟨0, 0⟩
  | some r => ⟨(svg.x - r.x) / SCALE - PITCH_WIDTH / 2,
               (svg.y - r.y) / SCALE - IN_GOAL_DEPTH⟩

/-- calculateDistance: Euclidean distance between two points. -/
noncomputable def calculateDistance (p1 p2 : Point) : ℝ :=
  Real.sqrt ((p2.x - p1.x) ^ 2 + (p2.y - p1.y) ^ 2)

/-- vectorLeft: vector from the point to the left post of the goal at goalY. -/
noncomputable def vectorLeft (point : Point) (goalY : ℝ) : Point :=
  ⟨-GOAL_POST_WIDTH / 2 - point.x, goalY - point.y⟩

/-- vectorRight: vector from the point to the right post of the goal at goalY. -/
noncomputable def vectorRight (point : Point) (goalY : ℝ) : Point :=
  ⟨GOAL_POST_WIDTH / 2 - point.x, goalY - point.y⟩

/-- dotProduct of the two point-to-post vectors. -/
noncomputable def dotProduct (point : Point) (goalY : ℝ) : ℝ :=
  (vectorLeft point goalY).x * (vectorRight point goalY).x +
    (vectorLeft point goalY).y * (vectorRight point goalY).y

/-- magnitudeLeft: length of the vector to the left post. -/
noncomputable def magnitudeLeft (point : Point) (goalY : ℝ) : ℝ :=
  Real.sqrt ((vectorLeft point goalY).x * (vectorLeft point goalY).x +
    (vectorLeft point goalY).y * (vectorLeft point goalY).y)

/-- magnitudeRight: length of the vector to the right post. -/
noncomputable def magnitudeRight (point : Point) (goalY : ℝ) : ℝ :=
  Real.sqrt ((vectorRight point goalY).x * (vectorRight point goalY).x +
    (vectorRight point goalY).y * (vectorRight point goalY).y)

/-- cosAngle: cosine of the angle between the two point-to-post vectors,
as the source computes it: dot product over product of magnitudes. Real
division gives a junk value (0) when the denominator is 0, which happens
exactly when the point sits on a post; JavaScript instead produces NaN
there — cosAngleJS below models that error path, and this definition is
used only where the denominator is nonzero. -/
noncomputable def cosAngle (point : Point) (goalY : ℝ) : ℝ :=
  dotProduct point goalY / (magnitudeLeft point goalY * magnitudeRight point goalY)

/-- cosAngleJS: the source's cosine with JavaScript division semantics made
explicit, none standing for NaN. The denominator is zero exactly when the
point coincides with a post, and then the corresponding vector is the zero
vector so the dot product is 0 too: the division is 0/0 = NaN (an infinity
cannot arise). Otherwise the quotient is the real one. -/
noncomputable def cosAngleJS (point : Point) (goalY : ℝ) : Option ℝ :=
  if magnitudeLeft point goalY * magnitudeRight point goalY = 0 then none
  else some (dotProduct point goalY /
    (magnitudeLeft point goalY * magnitudeRight point goalY))

/-- clampedCosJS: Math.max(-1, Math.min(1, cosAngle)) with NaN propagation:
Math.min and Math.max return NaN when an argument is NaN, so the clamp does
not recover from a NaN cosine. -/
noncomputable def clampedCosJS (point : Point) (goalY : ℝ) : Option ℝ :=
  (cosAngleJS point goalY).map (fun c => max (-1) (min 1 c))

/-- calculateAngleWidthJS: the returned angle with NaN propagation:
Math.acos(NaN) = NaN and NaN times a real is NaN, so a NaN cosine yields no
defined angle. -/
noncomputable def calculateAngleWidthJS (point : Point) (goalY : ℝ) : Option ℝ :=
  (clampedCosJS point goalY).map (fun c => Real.arccos c * (180 / Real.pi))

/-- clampedCos: the cosine clamped to the interval from -1 to 1, exactly as
the source writes Math.max(-1, Math.min(1, cosAngle)). -/
noncomputable def clampedCos (point : Point) (goalY : ℝ) : ℝ :=
  max (-1) (min 1 (cosAngle point goalY))

/-- calculateAngleWidth: the angle subtended by the posts, in degrees. -/
noncomputable def calculateAngleWidth (point : Point) (goalY : ℝ) : ℝ :=
  Real.arccos (clampedCos point goalY) * (180 / Real.pi)

/-- pitchPoint: the pitch-space point computed inline by handlePitchClick
from the client coordinates and the bounding rectangle top-left. -/
noncomputable def pitchPoint (rect client : Point) : Point :=
  ⟨(client.x - rect.x) / SCALE - PITCH_WIDTH / 2,
   (client.y - rect.y) / SCALE - IN_GOAL_DEPTH⟩

/-- topGoalY = PITCH_LENGTH, the goal line the source calls the top goal. -/
def topGoalY : ℝ := PITCH_LENGTH

/-- bottomGoalY = 0, the goal line the source calls the bottom goal. -/
def bottomGoalY : ℝ := 0

/-- distanceToTop: distance from the clicked pitch point to (0, topGoalY). -/
noncomputable def distanceToTop (rect client : Point) : ℝ :=
  calculateDistance (pitchPoint rect client) ⟨0, topGoalY⟩

/-- distanceToBottom: distance from the clicked pitch point to (0, bottomGoalY). -/
noncomputable def distanceToBottom (rect client : Point) : ℝ :=
  calculateDistance (pitchPoint rect client) ⟨0, bottomGoalY⟩

/-- nearestGoal: top when strictly nearer to the top goal, otherwise bottom. -/
noncomputable def nearestGoal (rect client : Point) : Goal :=
  if distanceToTop rect client < distanceToBottom rect client then Goal.top
  else Goal.bottom

/-- nearestGoalY: the goal-line y coordinate of the selected goal. -/
noncomputable def nearestGoalY (rect client : Point) : ℝ :=
  if nearestGoal rect client = Goal.top then topGoalY else bottomGoalY

/-- computeResult: the full result handlePitchClick assembles once the
bounding rectangle is available. -/
noncomputable def computeResult (rect client : Point) : CalculationResult :=
  { distanceToNearestGoal := min (distanceToTop rect client) (distanceToBottom rect client)
    angleWidth := calculateAngleWidth (pitchPoint rect client) (nearestGoalY rect client)
    selectedPoint := pitchPoint rect client
    nearestGoal := nearestGoal rect client }

/-- handlePitchClick: returns early (no result) when the bounding rectangle
is unavailable, otherwise produces the computed result. -/
noncomputable def handlePitchClick (rect : Option Point) (client : Point) :
    Option CalculationResult :=
  match rect with
  | none => none
  | some r => some (computeResult r client)

/-- clickState: the effect of one click on the stored calculation state.
setCalculation is reached only when the bounding rectangle is available;
otherwise the handler returns early and the previous state is kept. -/
noncomputable def clickState (rect : Option Point) (client : Point)
    (calculation : Option CalculationResult) : Option CalculationResult :=
  match rect with
  | none => calculation
  | some r => some (computeResult r client)

/-- pitchToSvg: converts pitch coordinates back to SVG-local coordinates. -/
noncomputable def pitchToSvg (pitchPoint : Point) : Point :=
  ⟨(pitchPoint.x + PITCH_WIDTH / 2) * SCALE,
   (pitchPoint.y + IN_GOAL_DEPTH) * SCALE⟩

/-- On the centerline at signed offset d from the goal line, the vector to
the left post is (-2.8, -d). -/
lemma vectorLeft_centerline (g d : ℝ) :
    vectorLeft ⟨0, g + d⟩ g = ⟨-2.8, -d⟩ := by
  simp only [vectorLeft, GOAL_POST_WIDTH, Point.mk.injEq]
  exact ⟨by norm_num, by ring⟩

/-- On the centerline at signed offset d from the goal line, the vector to
the right post is (2.8, -d). -/
lemma vectorRight_centerline (g d : ℝ) :
    vectorRight ⟨0, g + d⟩ g = ⟨2.8, -d⟩ := by
  simp only [vectorRight, GOAL_POST_WIDTH, Point.mk.injEq]
  exact ⟨by norm_num, by ring⟩

/-- Closed form of the raw cosine on the centerline. -/
lemma cosAngle_centerline (g d : ℝ) :
    cosAngle ⟨0, g + d⟩ g = (d * d - 7.84) / (d * d + 7.84) := by
  have hnn : (0 : ℝ) ≤ d * d + 7.84 := by linarith [mul_self_nonneg d]
  rw [cosAngle, dotProduct, magnitudeLeft, magnitudeRight,
    vectorLeft_centerline, vectorRight_centerline]
  have hL : (-2.8 : ℝ) * -2.8 + -d * -d = d * d + 7.84 := by ring
  have hR : (2.8 : ℝ) * 2.8 + -d * -d = d * d + 7.84 := by ring
  have hdot : (-2.8 : ℝ) * 2.8 + -d * -d = d * d - 7.84 := by ring
  rw [hL, hR, hdot, Real.mul_self_sqrt hnn]

/-- On the centerline the raw cosine already lies in the clamp interval, so
clamping leaves it unchanged. -/
lemma clampedCos_centerline (g d : ℝ) :
    clampedCos ⟨0, g + d⟩ g = (d * d - 7.84) / (d * d + 7.84) := by
  have hpos : (0 : ℝ) < d * d + 7.84 := by linarith [mul_self_nonneg d]
  have hle : (d * d - 7.84) / (d * d + 7.84) ≤ 1 := by
    rw [div_le_one hpos]
    nlinarith
  have hge : (-1 : ℝ) ≤ (d * d - 7.84) / (d * d + 7.84) := by
    rw [le_div_iff₀ hpos]
    nlinarith
  rw [clampedCos, cosAngle_centerline, min_eq_right hle, max_eq_right hge]

/-- Closed form of the angle width on the centerline. -/
lemma angleWidth_centerline (g d : ℝ) :
    calculateAngleWidth ⟨0, g + d⟩ g =
      Real.arccos ((d * d - 7.84) / (d * d + 7.84)) * (180 / Real.pi) := by
  rw [calculateAngleWidth, clampedCos_centerline]

/-- Claim C9: when the rendering surface cannot report its bounding
geometry, svgToPitch returns the zero point (0, 0) as a degraded-input
fallback rather than failing. -/
theorem C9_svgToPitch_fallback (svg : Point) : svgToPitch none svg = ⟨0, 0⟩ := rfl

/-- Claim C10: when the bounding rectangle is unavailable at click time,
handlePitchClick returns early producing no result, and the stored
calculation state (present or absent) is left unchanged; no fallback-based
result is stored. -/
theorem C10_click_early_return (client : Point) (calculation : Option CalculationResult) :
    handlePitchClick none client = none ∧
      clickState none client calculation = calculation :=
  ⟨rfl, rfl⟩

/-- Claim C1, counterexample: the screen pixel (140, 240) with origin offset
(0, 0) maps to the pitch point (0, 50), equidistant from both goal-line
midpoints, yet the selection returns the bottom goal (the Near goal at
pitch-y = 0), not the top goal (the Far goal at pitch-y = PITCH_LENGTH)
that the claim predicts. -/
theorem C1_tie_selects_near_counterexample :
    (computeResult ⟨0, 0⟩ ⟨140, 240⟩).selectedPoint = ⟨0, 50⟩ ∧
      (computeResult ⟨0, 0⟩ ⟨140, 240⟩).nearestGoal = Goal.bottom ∧
      (computeResult ⟨0, 0⟩ ⟨140, 240⟩).nearestGoal ≠ Goal.top := by
  have hp : pitchPoint ⟨0, 0⟩ ⟨140, 240⟩ = ⟨0, 50⟩ := by
    simp only [pitchPoint, SCALE, PITCH_WIDTH, IN_GOAL_DEPTH, Point.mk.injEq]
    norm_num
  have heq : distanceToTop ⟨0, 0⟩ ⟨140, 240⟩ = distanceToBottom ⟨0, 0⟩ ⟨140, 240⟩ := by
    simp only [distanceToTop, distanceToBottom, calculateDistance, hp, topGoalY,
      bottomGoalY, PITCH_LENGTH]
    norm_num
  have hgoal : nearestGoal ⟨0, 0⟩ ⟨140, 240⟩ = Goal.bottom := by
    rw [nearestGoal, if_neg]
    rw [heq]
    exact lt_irrefl _
  refine ⟨?_, ?_, ?_⟩
  · simpa [computeResult] using hp
  · simpa [computeResult] using hgoal
  · simp [computeResult, hgoal]

/-- Claim C1, amended: the Far goal (top, at pitch-y = PITCH_LENGTH) is
selected exactly when its distance is strictly smaller than the Near
distance; in every other case — ties included, so in particular every point
with pitch-y = PITCH_LENGTH / 2 — the Near goal (bottom, at pitch-y = 0) is
selected. -/
theorem C1_selection_iff_strictly_nearer (rect client : Point) :
    (computeResult rect client).nearestGoal = Goal.top ↔
      Real.sqrt (((0 : ℝ) - (pitchPoint rect client).x) ^ 2 +
          (PITCH_LENGTH - (pitchPoint rect client).y) ^ 2) <
        Real.sqrt (((0 : ℝ) - (pitchPoint rect client).x) ^ 2 +
          ((0 : ℝ) - (pitchPoint rect client).y) ^ 2) := by
  have hrw : (computeResult rect client).nearestGoal = nearestGoal rect client := rfl
  rw [hrw, nearestGoal, distanceToTop, distanceToBottom, calculateDistance,
    calculateDistance, topGoalY, bottomGoalY]
  by_cases h : Real.sqrt (((0 : ℝ) - (pitchPoint rect client).x) ^ 2 +
      (PITCH_LENGTH - (pitchPoint rect client).y) ^ 2) <
    Real.sqrt (((0 : ℝ) - (pitchPoint rect client).x) ^ 2 +
      ((0 : ℝ) - (pitchPoint rect client).y) ^ 2)
  · simp [h]
  · simp [h]

/-- Claim C2: at the failing input where the clicked point coincides exactly
with the left goal post of the goal line at y = 0, the point-to-post vector
is the zero vector, its magnitude is 0, and the denominator of the cosine
is exactly 0 — the division by zero the claim says is explicitly guarded
is in fact performed unguarded (in JavaScript it yields NaN, which
Math.max, Math.min and Math.acos all propagate). -/
theorem C2_post_division_by_zero :
    vectorLeft ⟨-GOAL_POST_WIDTH / 2, 0⟩ 0 = ⟨0, 0⟩ ∧
      magnitudeLeft ⟨-GOAL_POST_WIDTH / 2, 0⟩ 0 = 0 ∧
      magnitudeLeft ⟨-GOAL_POST_WIDTH / 2, 0⟩ 0 *
        magnitudeRight ⟨-GOAL_POST_WIDTH / 2, 0⟩ 0 = 0 := by
  have hv : vectorLeft ⟨-GOAL_POST_WIDTH / 2, 0⟩ 0 = ⟨0, 0⟩ := by
    simp only [vectorLeft, Point.mk.injEq]
    norm_num
  have hm : magnitudeLeft ⟨-GOAL_POST_WIDTH / 2, 0⟩ 0 = 0 := by
    rw [magnitudeLeft, hv]
    simp
  exact ⟨hv, hm, by rw [hm, zero_mul]⟩

/-- Claim C4: the reported distanceToNearestGoal is the minimum of the two
Euclidean distances from the clicked pitch point to the goal midpoints
(0, 0) and (0, PITCH_LENGTH), and it is non-negative. -/
theorem C4_distance_is_min (rect client : Point) :
    (computeResult rect client).distanceToNearestGoal =
      min (Real.sqrt (((0 : ℝ) - (pitchPoint rect client).x) ^ 2 +
            ((0 : ℝ) - (pitchPoint rect client).y) ^ 2))
        (Real.sqrt (((0 : ℝ) - (pitchPoint rect client).x) ^ 2 +
            (PITCH_LENGTH - (pitchPoint rect client).y) ^ 2)) ∧
      0 ≤ (computeResult rect client).distanceToNearestGoal := by
  have hrw : (computeResult rect client).distanceToNearestGoal =
      min (distanceToTop rect client) (distanceToBottom rect client) := rfl
  constructor
  · rw [hrw, distanceToTop, distanceToBottom, calculateDistance, calculateDistance,
      topGoalY, bottomGoalY, min_comm]
  · rw [hrw]
    exact le_min (Real.sqrt_nonneg _) (Real.sqrt_nonneg _)

/-- Claim C5, counterexample: at the left post of the goal line at y = 0 —
an input inside the claim's universal quantifier — the cosine is the
unguarded 0/0, NaN in JavaScript; the clamp does not recover it and the
returned angle is undefined, hence not within the interval from 0 to 180
degrees. -/
theorem C5_nan_at_post_counterexample :
    cosAngleJS ⟨-GOAL_POST_WIDTH / 2, 0⟩ 0 = none ∧
      clampedCosJS ⟨-GOAL_POST_WIDTH / 2, 0⟩ 0 = none ∧
      calculateAngleWidthJS ⟨-GOAL_POST_WIDTH / 2, 0⟩ 0 = none := by
  have hv : vectorLeft ⟨-GOAL_POST_WIDTH / 2, 0⟩ 0 = ⟨0, 0⟩ := by
    simp only [vectorLeft, Point.mk.injEq]
    norm_num
  have hm : magnitudeLeft ⟨-GOAL_POST_WIDTH / 2, 0⟩ 0 = 0 := by
    rw [magnitudeLeft, hv]
    simp
  have hc : cosAngleJS ⟨-GOAL_POST_WIDTH / 2, 0⟩ 0 = none := by
    rw [cosAngleJS, if_pos]
    rw [hm, zero_mul]
  refine ⟨hc, ?_, ?_⟩
  · rw [clampedCosJS, hc]
    rfl
  · rw [calculateAngleWidthJS, clampedCosJS, hc]
    rfl

/-- Claim C5, amended: for every point that does not coincide with a post
(equivalently, the product of the two point-to-post magnitudes is nonzero),
the derived cosine is clamped into the interval from -1 to 1 before the
arccosine is taken and the returned angle lies between 0 and 180 degrees —
and there the NaN-aware computation agrees with the real-valued one; at a
post the cosine is NaN and no angle in that range is returned. -/
theorem C5_clamp_and_range_off_post (point : Point) (goalY : ℝ)
    (h : magnitudeLeft point goalY * magnitudeRight point goalY ≠ 0) :
    calculateAngleWidthJS point goalY = some (calculateAngleWidth point goalY) ∧
      -1 ≤ clampedCos point goalY ∧ clampedCos point goalY ≤ 1 ∧
      0 ≤ calculateAngleWidth point goalY ∧
      calculateAngleWidth point goalY ≤ 180 := by
  have hscale : (0 : ℝ) ≤ 180 / Real.pi :=
    le_of_lt (div_pos (by norm_num) Real.pi_pos)
  refine ⟨?_, le_max_left _ _, max_le (by norm_num) (min_le_left _ _), ?_, ?_⟩
  · rw [calculateAngleWidthJS, clampedCosJS, cosAngleJS, if_neg h]
    rfl
  · exact mul_nonneg (Real.arccos_nonneg _) hscale
  · have h1 : calculateAngleWidth point goalY ≤ Real.pi * (180 / Real.pi) :=
      mul_le_mul_of_nonneg_right (Real.arccos_le_pi _) hscale
    have h2 : Real.pi * (180 / Real.pi) = 180 := by
      field_simp
    rw [h2] at h1
    exact h1

/-- Witness for the amended C5 at the concrete non-post point (0, 0) with
the goal line at y = 0, where the magnitude product evaluates to 7.84. -/
theorem C5_clamp_and_range_off_post_witness :
    calculateAngleWidthJS ⟨0, 0⟩ 0 = some (calculateAngleWidth ⟨0, 0⟩ 0) ∧
      -1 ≤ clampedCos ⟨0, 0⟩ 0 ∧ clampedCos ⟨0, 0⟩ 0 ≤ 1 ∧
      0 ≤ calculateAngleWidth ⟨0, 0⟩ 0 ∧
      calculateAngleWidth ⟨0, 0⟩ 0 ≤ 180 :=
  C5_clamp_and_range_off_post ⟨0, 0⟩ 0 (by
    have hL : magnitudeLeft ⟨0, 0⟩ 0 = Real.sqrt 7.84 := by
      rw [magnitudeLeft, vectorLeft]
      norm_num [GOAL_POST_WIDTH]
    have hR : magnitudeRight ⟨0, 0⟩ 0 = Real.sqrt 7.84 := by
      rw [magnitudeRight, vectorRight]
      norm_num [GOAL_POST_WIDTH]
    rw [hL, hR, Real.mul_self_sqrt (by norm_num)]
    norm_num)

/-- Claim C6, counterexample: with origin offset (10, 20), the screen point
(140, 240) converts to pitch coordinates and back to (130, 220) — the
SVG-local coordinate, not the original screen coordinate. -/
theorem C6_roundtrip_counterexample :
    pitchToSvg (svgToPitch (some ⟨10, 20⟩) ⟨140, 240⟩) = ⟨130, 220⟩ ∧
      pitchToSvg (svgToPitch (some ⟨10, 20⟩) ⟨140, 240⟩) ≠ (⟨140, 240⟩ : Point) := by
  have h : pitchToSvg (svgToPitch (some ⟨10, 20⟩) ⟨140, 240⟩) = ⟨130, 220⟩ := by
    simp only [pitchToSvg, svgToPitch, SCALE, PITCH_WIDTH, IN_GOAL_DEPTH, Point.mk.injEq]
    norm_num
  refine ⟨h, ?_⟩
  rw [h]
  simp only [Ne, Point.mk.injEq, not_and]
  norm_num

/-- Claim C6, amended: converting a screen coordinate to pitch space and
back through pitchToSvg returns the screen coordinate minus the origin
offset (the SVG-local coordinate); it round-trips to the original screen
coordinate exactly when the origin offset is (0, 0). -/
theorem C6_roundtrip_relative (rect svg : Point) :
    pitchToSvg (svgToPitch (some rect) svg) = ⟨svg.x - rect.x, svg.y - rect.y⟩ ∧
      pitchToSvg (svgToPitch (some ⟨0, 0⟩) svg) = svg := by
  constructor
  · simp only [pitchToSvg, svgToPitch, SCALE, PITCH_WIDTH, IN_GOAL_DEPTH, Point.mk.injEq]
    constructor <;> ring
  · ext
    · simp only [pitchToSvg, svgToPitch, SCALE, PITCH_WIDTH, IN_GOAL_DEPTH]
      ring
    · simp only [pitchToSvg, svgToPitch, SCALE, PITCH_WIDTH, IN_GOAL_DEPTH]
      ring

/-- Claim C3: the screen-to-pitch conversion computes exactly
(relative.x / SCALE - PITCH_WIDTH / 2, relative.y / SCALE - IN_GOAL_DEPTH)
from relative = screenPoint - originOffset; with origin offset (0, 0), the
screen pixel (140, 40) yields the pitch point (0, 0), the Near (bottom)
goal, distance 0, and angle width 180 degrees. -/
theorem C3_conversion_formula_and_origin_scenario :
    (∀ rect svg : Point,
      svgToPitch (some rect) svg =
        ⟨(svg.x - rect.x) / SCALE - PITCH_WIDTH / 2,
         (svg.y - rect.y) / SCALE - IN_GOAL_DEPTH⟩) ∧
      computeResult ⟨0, 0⟩ ⟨140, 40⟩ = ⟨0, 180, ⟨0, 0⟩, Goal.bottom⟩ := by
  refine ⟨fun rect svg => rfl, ?_⟩
  have hp : pitchPoint ⟨0, 0⟩ ⟨140, 40⟩ = ⟨0, 0⟩ := by
    simp only [pitchPoint, SCALE, PITCH_WIDTH, IN_GOAL_DEPTH, Point.mk.injEq]
    norm_num
  have hTop : distanceToTop ⟨0, 0⟩ ⟨140, 40⟩ = 100 := by
    rw [distanceToTop, hp, calculateDistance, topGoalY, PITCH_LENGTH]
    rw [show ((0 : ℝ) - 0) ^ 2 + (100 - 0) ^ 2 = 100 ^ 2 by norm_num]
    exact Real.sqrt_sq (by norm_num)
  have hBot : distanceToBottom ⟨0, 0⟩ ⟨140, 40⟩ = 0 := by
    rw [distanceToBottom, hp, calculateDistance, bottomGoalY]
    rw [show ((0 : ℝ) - 0) ^ 2 + (0 - 0) ^ 2 = 0 by norm_num]
    exact Real.sqrt_zero
  have hGoal : nearestGoal ⟨0, 0⟩ ⟨140, 40⟩ = Goal.bottom := by
    rw [nearestGoal, hTop, hBot, if_neg (by norm_num)]
  have hY : nearestGoalY ⟨0, 0⟩ ⟨140, 40⟩ = 0 := by
    rw [nearestGoalY, hGoal, if_neg (by simp), bottomGoalY]
  have hAngle : calculateAngleWidth ⟨0, 0⟩ 0 = 180 := by
    have h := angleWidth_centerline 0 0
    rw [add_zero] at h
    rw [h, show ((0 : ℝ) * 0 - 7.84) / (0 * 0 + 7.84) = -1 by norm_num,
      Real.arccos_neg_one]
    field_simp
  rw [computeResult, hTop, hBot, hGoal, hY, hp, hAngle]
  simp only [CalculationResult.mk.injEq]
  norm_num

/-- Claim C7: on the centerline in front of a goal line, the angle width
strictly decreases as the perpendicular distance grows, and is strictly
below 180 degrees at every positive distance. -/
theorem C7_centerline_angle_decreasing (g d1 d2 : ℝ) (h0 : 0 < d1) (h12 : d1 < d2) :
    calculateAngleWidth ⟨0, g + d2⟩ g < calculateAngleWidth ⟨0, g + d1⟩ g ∧
      calculateAngleWidth ⟨0, g + d1⟩ g < 180 := by
  have hpos1 : (0 : ℝ) < d1 * d1 + 7.84 := by linarith [mul_self_nonneg d1]
  have hpos2 : (0 : ℝ) < d2 * d2 + 7.84 := by linarith [mul_self_nonneg d2]
  have hsq : d1 * d1 < d2 * d2 := by nlinarith
  have hmono : (d1 * d1 - 7.84) / (d1 * d1 + 7.84) <
      (d2 * d2 - 7.84) / (d2 * d2 + 7.84) := by
    rw [div_lt_div_iff₀ hpos1 hpos2]
    nlinarith
  have hmem1 : (d1 * d1 - 7.84) / (d1 * d1 + 7.84) ∈ Set.Icc (-1 : ℝ) 1 := by
    constructor
    · rw [le_div_iff₀ hpos1]
      nlinarith
    · rw [div_le_one hpos1]
      nlinarith
  have hmem2 : (d2 * d2 - 7.84) / (d2 * d2 + 7.84) ∈ Set.Icc (-1 : ℝ) 1 := by
    constructor
    · rw [le_div_iff₀ hpos2]
      nlinarith
    · rw [div_le_one hpos2]
      nlinarith
  have hscale : (0 : ℝ) < 180 / Real.pi := div_pos (by norm_num) Real.pi_pos
  have harccos : Real.arccos ((d2 * d2 - 7.84) / (d2 * d2 + 7.84)) <
      Real.arccos ((d1 * d1 - 7.84) / (d1 * d1 + 7.84)) :=
    Real.strictAntiOn_arccos hmem1 hmem2 hmono
  constructor
  · rw [angleWidth_centerline, angleWidth_centerline]
    exact mul_lt_mul_of_pos_right harccos hscale
  · have hgt : (-1 : ℝ) < (d1 * d1 - 7.84) / (d1 * d1 + 7.84) := by
      rw [lt_div_iff₀ hpos1]
      nlinarith
    have hne : Real.arccos ((d1 * d1 - 7.84) / (d1 * d1 + 7.84)) ≠ Real.pi := by
      rw [Ne, Real.arccos_eq_pi]
      exact not_le.mpr hgt
    have hlt : Real.arccos ((d1 * d1 - 7.84) / (d1 * d1 + 7.84)) < Real.pi :=
      lt_of_le_of_ne (Real.arccos_le_pi _) hne
    have h180 : Real.pi * (180 / Real.pi) = 180 := by
      field_simp
    have hfin := mul_lt_mul_of_pos_right hlt hscale
    rw [h180] at hfin
    rw [angleWidth_centerline]
    exact hfin

/-- Witness for C7 at the concrete distances 1 and 2 in front of the goal
line at y = 0. -/
theorem C7_centerline_angle_decreasing_witness :
    calculateAngleWidth ⟨0, 0 + 2⟩ 0 < calculateAngleWidth ⟨0, 0 + 1⟩ 0 ∧
      calculateAngleWidth ⟨0, 0 + 1⟩ 0 < 180 :=
  C7_centerline_angle_decreasing 0 1 2 one_pos one_lt_two

/-- Claim C8: negating the pitch-x coordinate of the input point leaves the
computed angle width unchanged — mirror symmetry about the centerline
through the goal midpoints (proved for every point, so in particular for
points not coinciding with a post). -/
theorem C8_angle_mirror_symmetry (x y g : ℝ) :
    calculateAngleWidth ⟨-x, y⟩ g = calculateAngleWidth ⟨x, y⟩ g := by
  have hdot : dotProduct ⟨-x, y⟩ g = dotProduct ⟨x, y⟩ g := by
    simp only [dotProduct, vectorLeft, vectorRight]
    ring
  have hmagL : magnitudeLeft ⟨-x, y⟩ g = magnitudeRight ⟨x, y⟩ g := by
    simp only [magnitudeLeft, magnitudeRight, vectorLeft, vectorRight]
    congr 1
    ring
  have hmagR : magnitudeRight ⟨-x, y⟩ g = magnitudeLeft ⟨x, y⟩ g := by
    simp only [magnitudeLeft, magnitudeRight, vectorLeft, vectorRight]
    congr 1
    ring
  rw [calculateAngleWidth, calculateAngleWidth, clampedCos, clampedCos,
    cosAngle, cosAngle, hdot, hmagL, hmagR,
    mul_comm (magnitudeRight (⟨x, y⟩ : Point) g) (magnitudeLeft (⟨x, y⟩ : Point) g)]

end RugbyPitch
